import Mathlib

/-!
Verification development for the nexasec client-side network-interception
cache. Two service workers implement the interception layer:

* `src/frontend/src/service-worker.ts` — the TypeScript worker. Its fetch
  listener filters on method GET, scheme http/https, and same origin; on a
  HIT it returns the cached response and revalidates in the background; on
  a MISS it fetches, awaits a guarded `cache.put`, and returns the network
  response, synthesizing a 503 response if the fetch throws. Its install
  listener preloads with one atomic `cache.addAll` call, catching the whole
  chain.

* `src/frontend/public/service-worker.js` — the JavaScript worker. Its
  fetch listener filters only on method GET; its revalidation path stores
  any status-200 response (no `type === basic` check); its MISS path stores
  status-200 basic responses with a floating (non-awaited) `cache.put`; its
  MISS catch rethrows the fetch error. Its install listener preloads each
  URL individually with a per-entry catch, and its activate listener deletes
  every cache whose name differs from the current version.

The embeddings below translate both workers. A cache is an association
list from request identity to stored response; background (non-awaited)
effects are separated from synchronous ones by recording two cache states,
`syncCache` (state when the response is delivered to the caller) and
`bgCache` (state after all scheduled background work has settled). A
`putFails` flag models a store-write failure (for instance quota exceeded);
a network oracle `net : Request → Option Response` models `fetch`, with
`none` meaning the fetch promise rejected.
-/

namespace NexaSec

/-- URL components the service workers inspect: scheme, origin and path. -/
structure Url where
  protocol : String
  origin : String
  path : String
  deriving DecidableEq

/-- Request identity: method plus URL, as used by the Cache API key. -/
structure Request where
  method : String
  url : Url
  deriving DecidableEq

/-- Opaque response snapshot: status code, status text, body, and the
fetch response type (basic, cors, opaque, default, ...). -/
structure Response where
  status : Nat
  statusText : String
  body : String
  type : String
  deriving DecidableEq

/-- `Response.ok` of the fetch API: status in the range 200..299. -/
def Response.ok (r : Response) : Bool :=
  decide (200 ≤ r.status) && decide (r.status ≤ 299)

/-- A cache namespace content: association list keyed by request identity. -/
abbrev Cache := List (Request × Response)

/-- `cache.match`: first binding for the request identity, if any. -/
def cacheMatch (c : Cache) (k : Request) : Option Response :=
  match c with
  | [] => none
  | (k0, v0) :: rest => if k0 = k then some v0 else cacheMatch rest k

/-- `cache.put`: replace the binding for the key, appending when absent. -/
def cachePut (c : Cache) (k : Request) (v : Response) : Cache :=
  match c with
  | [] => [(k, v)]
  | (k0, v0) :: rest =>
      if k0 = k then (k, v) :: rest else (k0, v0) :: cachePut rest k v

/-- The version string of the current cache namespace (both workers). -/
def CACHE_NAME : String := "nexa-security-cache-v1"

/-- `urlsToCache` of the TypeScript worker. -/
def tsUrlsToCache : List String := ["/api/network/map", "/api/scans"]

/-- `urlsToCache` of the JavaScript worker. -/
def jsUrlsToCache : List String := ["/", "/manifest.json"]

/-- What the caller of `respondWith` observes from one fetch event:
the event was not taken over at all, a response was delivered, or the
response promise rejected (an exception propagated). -/
inductive Outcome where
  | passThrough
  | respond (r : Response)
  | reject
  deriving DecidableEq

/-- Result of running one fetch event to completion: the caller-visible
outcome, the cache state at the moment the outcome is delivered
(`syncCache`), the cache state after background tasks settle (`bgCache`),
and how many background revalidation fetches were dispatched. -/
structure HandleResult where
  outcome : Outcome
  syncCache : Cache
  bgCache : Cache
  revalidations : Nat
  deriving DecidableEq

/-- Scope filter of the TypeScript worker fetch listener: the three early
returns on method, protocol and origin. -/
def tsScope (swOrigin : String) (req : Request) : Bool :=
  if req.method ≠ "GET" then false
  else if req.url.protocol ≠ "http:" ∧ req.url.protocol ≠ "https:" then false
  else if req.url.origin ≠ swOrigin then false
  else true

/-- Cacheability test of the TypeScript worker, used identically on the
revalidation and MISS paths: `networkResponse.ok && networkResponse.type
=== basic`. -/
def tsCacheable (r : Response) : Bool :=
  r.ok && decide (r.type = "basic")

/-- The synthesized response of the TypeScript worker MISS catch block. -/
def ts503 : Response :=
  { status := 503
    statusText := "Service Unavailable"
    body := "Network request failed and no cache available"
    type := "default" }

/-- Fetch listener of the TypeScript worker. HIT: respond with the cached
entry and revalidate in the background (the put guarded by `tsCacheable`,
its failure caught). MISS: await the fetch; on success store when
`tsCacheable` (the awaited put failure caught) and return the network
response; on fetch rejection return the synthesized 503 response. -/
def tsHandle (swOrigin : String) (net : Request → Option Response)
    (putFails : Bool) (cache : Cache) (req : Request) : HandleResult :=
  if tsScope swOrigin req = false then
    { outcome := .passThrough, syncCache := cache, bgCache := cache,
      revalidations := 0 }
  else
    match cacheMatch cache req with
    | some cached =>
        let bg :=
          match net req with
          | some nr =>
              if tsCacheable nr && !putFails then cachePut cache req nr
              else cache
          | none => cache
        { outcome := .respond cached, syncCache := cache, bgCache := bg,
          revalidations := 1 }
    | none =>
        match net req with
        | some nr =>
            let c2 :=
              if tsCacheable nr && !putFails then cachePut cache req nr
              else cache
            { outcome := .respond nr, syncCache := c2, bgCache := c2,
              revalidations := 0 }
        | none =>
            { outcome := .respond ts503, syncCache := cache, bgCache := cache,
              revalidations := 0 }

/-- Revalidation-path store test of the JavaScript worker:
`networkResponse && networkResponse.status === 200` only. -/
def jsRevalCacheable (r : Response) : Bool :=
  decide (r.status = 200)

/-- MISS-path store test of the JavaScript worker: the response survives
`!response || response.status !== 200 || response.type !== basic`. -/
def jsMissCacheable (r : Response) : Bool :=
  decide (r.status = 200) && decide (r.type = "basic")

/-- Fetch listener of the JavaScript worker. Only non-GET requests are
passed through. HIT: respond with the cached entry and revalidate in the
background guarded by `jsRevalCacheable`. MISS: fetch; when
`jsMissCacheable` holds, store with a floating (non-awaited) put and
return the response, otherwise return it unstored; on fetch rejection the
error is rethrown, so the response promise rejects. -/
def jsHandle (net : Request → Option Response) (putFails : Bool)
    (cache : Cache) (req : Request) : HandleResult :=
  if req.method ≠ "GET" then
    { outcome := .passThrough, syncCache := cache, bgCache := cache,
      revalidations := 0 }
  else
    match cacheMatch cache req with
    | some cached =>
        let bg :=
          match net req with
          | some nr =>
              if jsRevalCacheable nr && !putFails then cachePut cache req nr
              else cache
          | none => cache
        { outcome := .respond cached, syncCache := cache, bgCache := bg,
          revalidations := 1 }
    | none =>
        match net req with
        | some nr =>
            if jsMissCacheable nr then
              let c2 := if !putFails then cachePut cache req nr else cache
              { outcome := .respond nr, syncCache := cache, bgCache := c2,
                revalidations := 0 }
            else
              { outcome := .respond nr, syncCache := cache, bgCache := cache,
                revalidations := 0 }
        | none =>
            { outcome := .reject, syncCache := cache, bgCache := cache,
              revalidations := 0 }

/-- The GET request `cache.add(url)` builds from a preload URL. -/
def reqOfUrl (swOrigin : String) (u : String) : Request :=
  { method := "GET", url := { protocol := "https:", origin := swOrigin, path := u } }

/-- One preload fetch as seen by `cache.add`: the fetched response when the
fetch resolves with an ok status, otherwise `none` (`add` rejects on both a
network error and a non-ok response). -/
def preloadFetch (net : Request → Option Response) (swOrigin u : String) :
    Option Response :=
  match net (reqOfUrl swOrigin u) with
  | some r => if r.ok then some r else none
  | none => none

/-- Install listener of the TypeScript worker: one `cache.addAll` over the
preload set, the whole chain caught. `addAll` is atomic: it stores every
entry when every preload fetch succeeds, and stores nothing when any
fails. -/
def tsInstall (swOrigin : String) (net : Request → Option Response)
    (cache : Cache) (urls : List String) : Cache :=
  if urls.all (fun u => (preloadFetch net swOrigin u).isSome) then
    urls.foldl (fun c u =>
      match preloadFetch net swOrigin u with
      | some r => cachePut c (reqOfUrl swOrigin u) r
      | none => c) cache
  else cache

/-- Install listener of the JavaScript worker: each preload URL is added
individually with a per-entry catch, so one failing entry is skipped and
the rest proceed; installation always completes. -/
def jsInstall (swOrigin : String) (net : Request → Option Response)
    (cache : Cache) (urls : List String) : Cache :=
  urls.foldl (fun c u =>
    match preloadFetch net swOrigin u with
    | some r => cachePut c (reqOfUrl swOrigin u) r
    | none => c) cache

/-- `caches.open name` creates the namespace when absent. -/
def openNamespace (name : String) (names : List String) : List String :=
  if name ∈ names then names else names ++ [name]

/-- Activate listener of the JavaScript worker: every cache namespace whose
name differs from `CACHE_NAME` is deleted; the survivors are exactly those
named `CACHE_NAME`. (The TypeScript worker registers no activate listener.) -/
def jsActivate (cacheNames : List String) : List String :=
  cacheNames.filter (fun n => decide (n = CACHE_NAME))

/-- Every entry of the cache holds a GET-keyed identity. -/
def allGet (c : Cache) : Bool :=
  c.all (fun p => decide (p.1.method = "GET"))

/-- Every entry of `c2` either already stood in `c1` or satisfies the
predicate: the checker behind the storage invariants. -/
def writesRespect (c1 : Cache) (pred : Response → Bool) (c2 : Cache) : Bool :=
  c2.all (fun p => decide (p ∈ c1) || pred p.2)

theorem cacheMatch_put_self (c : Cache) (k : Request) (v : Response) :
    cacheMatch (cachePut c k v) k = some v := by
  induction c with
  | nil => simp [cachePut, cacheMatch]
  | cons hd tl ih =>
      obtain ⟨k0, v0⟩ := hd
      by_cases h : k0 = k
      · simp [cachePut, cacheMatch, h]
      · simp [cachePut, cacheMatch, h, ih]

theorem cacheMatch_put_other (c : Cache) (k k' : Request) (v : Response)
    (h : k' ≠ k) : cacheMatch (cachePut c k v) k' = cacheMatch c k' := by
  have h2 : ¬ k = k' := fun hh => h (Eq.symm hh)
  induction c with
  | nil => simp [cachePut, cacheMatch, h2]
  | cons hd tl ih =>
      obtain ⟨k0, v0⟩ := hd
      by_cases h0 : k0 = k
      · subst h0
        simp [cachePut, cacheMatch, h2]
      · simp only [cachePut, if_neg h0, cacheMatch]
        by_cases h1 : k0 = k'
        · simp [h1]
        · simp [h1, ih]

theorem mem_cachePut (c : Cache) (k : Request) (v : Response)
    (p : Request × Response) (hp : p ∈ cachePut c k v) :
    p = (k, v) ∨ p ∈ c := by
  induction c with
  | nil => simpa [cachePut] using hp
  | cons hd tl ih =>
      obtain ⟨k0, v0⟩ := hd
      by_cases h : k0 = k
      · rw [cachePut, if_pos h] at hp
        rcases List.mem_cons.mp hp with h1 | h1
        · exact Or.inl h1
        · exact Or.inr (List.mem_cons_of_mem _ h1)
      · rw [cachePut, if_neg h] at hp
        rcases List.mem_cons.mp hp with h1 | h1
        · exact Or.inr (h1 ▸ List.mem_cons_self _ _)
        · rcases ih h1 with h2 | h2
          · exact Or.inl h2
          · exact Or.inr (List.mem_cons_of_mem _ h2)

theorem writesRespect_refl (c : Cache) (pred : Response → Bool) :
    writesRespect c pred c = true := by
  simp only [writesRespect, List.all_eq_true]
  intro p hp
  simp [hp]

theorem writesRespect_put (c : Cache) (pred : Response → Bool) (k : Request)
    (v : Response) (hv : pred v = true) :
    writesRespect c pred (cachePut c k v) = true := by
  simp only [writesRespect, List.all_eq_true]
  intro p hp
  rcases mem_cachePut c k v p hp with h | h
  · subst h; simp [hv]
  · simp [h]

theorem allGet_put (c : Cache) (k : Request) (v : Response)
    (hc : allGet c = true) (hk : k.method = "GET") :
    allGet (cachePut c k v) = true := by
  simp only [allGet, List.all_eq_true] at hc ⊢
  intro p hp
  rcases mem_cachePut c k v p hp with h | h
  · subst h; simp [hk]
  · exact hc p h

/-! Concrete fixtures used by counterexamples and witnesses. -/

/-- The origin the interception layer itself is served from. -/
def appOrigin : String := "https://app.nexasec.test"

/-- A same-origin https GET request for the given path. -/
def apiReq (p : String) : Request :=
  { method := "GET", url := { protocol := "https:", origin := appOrigin, path := p } }

/-- A same-origin POST request for the given path. -/
def postReq (p : String) : Request :=
  { method := "POST", url := { protocol := "https:", origin := appOrigin, path := p } }

/-- A GET request on a non-network scheme and foreign origin. -/
def extReq : Request :=
  { method := "GET"
    url := { protocol := "chrome-extension:", origin := "chrome-extension://abcdef", path := "/rules" } }

/-- A successful same-origin basic response. -/
def okBasic : Response :=
  { status := 200, statusText := "OK", body := "payload", type := "basic" }

/-- A successful cross-origin CORS response: status 200 but not basic. -/
def okCors : Response :=
  { status := 200, statusText := "OK", body := "payload", type := "cors" }

/-- Claim C1, counterexample. The request `extReq` violates two of the
three Scope Filter rules (non-network scheme, foreign origin), yet the
JavaScript worker — whose filter checks only the method — hands it to the
policy engine: the event is taken over, a response is delivered, and the
store is even written. So the policy engine is reached by a request
failing the Scope Filter rules, refuting the claim as stated. -/
theorem C1_counterexample :
    tsScope appOrigin extReq = false ∧
    (jsHandle (fun _ => some okBasic) false [] extReq).outcome =
      Outcome.respond okBasic ∧
    (jsHandle (fun _ => some okBasic) false [] extReq).bgCache =
      [(extReq, okBasic)] := by
  decide

/-- Claim C1, amended. In the TypeScript worker the Scope Filter is exactly
the conjunction of the three rules (method GET, scheme http or https, same
origin): any request failing it is passed through untouched with no side
effects, and any request satisfying it reaches the policy engine. In the
JavaScript worker only the method rule is enforced: non-GET requests are
passed through untouched, but every GET request reaches the policy engine
regardless of scheme or origin. -/
theorem C1_amended (swOrigin : String) (net netJ : Request → Option Response)
    (putFails pfJ : Bool) (cache cacheJ : Cache)
    (rPass rIn rAny rNonGet rGet : Request)
    (hPass : tsScope swOrigin rPass = false)
    (hIn : tsScope swOrigin rIn = true)
    (hNG : ¬ rNonGet.method = "GET")
    (hGet : rGet.method = "GET") :
    tsHandle swOrigin net putFails cache rPass =
      { outcome := .passThrough, syncCache := cache, bgCache := cache,
        revalidations := 0 } ∧
    (tsHandle swOrigin net putFails cache rIn).outcome ≠ Outcome.passThrough ∧
    tsScope swOrigin rAny =
      (decide (rAny.method = "GET") &&
        (decide (rAny.url.protocol = "http:") || decide (rAny.url.protocol = "https:")) &&
        decide (rAny.url.origin = swOrigin)) ∧
    jsHandle netJ pfJ cacheJ rNonGet =
      { outcome := .passThrough, syncCache := cacheJ, bgCache := cacheJ,
        revalidations := 0 } ∧
    (jsHandle netJ pfJ cacheJ rGet).outcome ≠ Outcome.passThrough := by
  refine ⟨?_, ?_, ?_, ?_, ?_⟩
  · simp [tsHandle, hPass]
  · unfold tsHandle
    rw [hIn]
    simp only [Bool.true_eq_false, if_false]
    split
    · simp
    · split <;> simp
  · unfold tsScope
    by_cases h1 : rAny.method = "GET" <;>
      by_cases h2 : rAny.url.protocol = "http:" <;>
        by_cases h3 : rAny.url.protocol = "https:" <;>
          by_cases h4 : rAny.url.origin = swOrigin <;>
            simp [h1, h2, h3, h4]
  · simp [jsHandle, hNG]
  · unfold jsHandle
    rw [if_neg (by simp [hGet])]
    split
    · simp
    · split
      · split <;> simp
      · simp

/-- Claim C1, witness for the amended theorem at concrete inputs. -/
theorem C1_witness :
    tsHandle appOrigin (fun _ => some okBasic) false [] (postReq "/api/scans") =
      { outcome := .passThrough, syncCache := [], bgCache := [],
        revalidations := 0 } ∧
    (tsHandle appOrigin (fun _ => some okBasic) false [] (apiReq "/api/scans")).outcome ≠
      Outcome.passThrough ∧
    tsScope appOrigin extReq =
      (decide (extReq.method = "GET") &&
        (decide (extReq.url.protocol = "http:") || decide (extReq.url.protocol = "https:")) &&
        decide (extReq.url.origin = appOrigin)) ∧
    jsHandle (fun _ => some okBasic) false [] (postReq "/api/scans") =
      { outcome := .passThrough, syncCache := [], bgCache := [],
        revalidations := 0 } ∧
    (jsHandle (fun _ => some okBasic) false [] extReq).outcome ≠
      Outcome.passThrough :=
  C1_amended appOrigin (fun _ => some okBasic) (fun _ => some okBasic)
    false false [] [] (postReq "/api/scans") (apiReq "/api/scans") extReq
    (postReq "/api/scans") extReq (by decide) (by decide) (by decide) (by decide)

/-- Claim C2, counterexample. On a MISS whose fetch rejects, the JavaScript
worker rethrows the error, so the caller observes a rejected response
promise rather than the synthesized 503 response: an exception does
propagate to the caller, refuting the claim as stated. -/
theorem C2_counterexample :
    (jsHandle (fun _ => none) false [] (apiReq "/api/network/map")).outcome =
      Outcome.reject ∧
    ¬ (jsHandle (fun _ => none) false [] (apiReq "/api/network/map")).outcome =
      Outcome.respond ts503 := by
  decide

/-- Claim C2, amended. In the TypeScript worker, a MISS whose fetch rejects
yields exactly the synthesized 503 response with the fixed diagnostic body
and no other effect, and no input whatsoever makes that worker reject —
the 503 response is the only caller-visible failure value. In the
JavaScript worker, the same situation instead rejects the response
promise: the failure propagates to the caller as an exception. -/
theorem C2_amended (swOrigin : String)
    (net netA netJ : Request → Option Response)
    (putFails pfA pfJ : Bool) (cache cacheA cacheJ : Cache)
    (req reqA reqJ : Request)
    (hscope : tsScope swOrigin req = true)
    (hmiss : cacheMatch cache req = none)
    (hnet : net req = none)
    (hjm : reqJ.method = "GET")
    (hjmiss : cacheMatch cacheJ reqJ = none)
    (hjnet : netJ reqJ = none) :
    tsHandle swOrigin net putFails cache req =
      { outcome := .respond ts503, syncCache := cache, bgCache := cache,
        revalidations := 0 } ∧
    (tsHandle swOrigin netA pfA cacheA reqA).outcome ≠ Outcome.reject ∧
    (jsHandle netJ pfJ cacheJ reqJ).outcome = Outcome.reject := by
  refine ⟨?_, ?_, ?_⟩
  · unfold tsHandle
    rw [hscope]
    simp only [Bool.true_eq_false, if_false]
    rw [hmiss, hnet]
  · unfold tsHandle
    split
    · simp
    · split
      · simp
      · split <;> simp
  · unfold jsHandle
    rw [if_neg (by simp [hjm]), hjmiss, hjnet]

/-- Claim C2, witness for the amended theorem at concrete inputs. -/
theorem C2_witness :
    tsHandle appOrigin (fun _ => none) false [] (apiReq "/api/scans") =
      { outcome := .respond ts503, syncCache := [], bgCache := [],
        revalidations := 0 } ∧
    (tsHandle appOrigin (fun _ => none) true [] (postReq "/x")).outcome ≠
      Outcome.reject ∧
    (jsHandle (fun _ => none) false [] (apiReq "/api/scans")).outcome =
      Outcome.reject :=
  C2_amended appOrigin (fun _ => none) (fun _ => none) (fun _ => none)
    false true false [] [] [] (apiReq "/api/scans") (postReq "/x")
    (apiReq "/api/scans") (by decide) (by decide) (by decide) (by decide)
    (by decide) (by decide)

/-- Claim C3, counterexample. `okCors` is a status-200 cross-origin (type
cors, not basic) response. The MISS path of the JavaScript worker refuses
to store it, but its revalidation path — which checks only the status —
overwrites the existing entry with it: the two paths do not apply the same
cacheability criteria, and a non-basic response is written to the store. -/
theorem C3_counterexample :
    ¬ okCors.type = "basic" ∧
    jsMissCacheable okCors = false ∧
    (jsHandle (fun _ => some okCors) false
        [(apiReq "/api/scans", okBasic)] (apiReq "/api/scans")).bgCache =
      [(apiReq "/api/scans", okCors)] := by
  decide

/-- Claim C3, amended. Every store write of the TypeScript worker, on the
MISS path and the revalidation path alike, stores only responses that are
ok and basic — both paths share the `tsCacheable` test. In the JavaScript
worker, every write stores only status-200 responses, and on a MISS the
written response is additionally basic, but the revalidation path checks
only the status, so a cross-origin non-opaque (cors) 200 response can be
written by revalidation even though the MISS path would reject it. -/
theorem C3_amended (swOrigin : String) (net netM : Request → Option Response)
    (putFails pfM : Bool) (cache cacheM : Cache) (req reqM : Request)
    (hm : cacheMatch cacheM reqM = none) :
    writesRespect cache tsCacheable
      (tsHandle swOrigin net putFails cache req).syncCache = true ∧
    writesRespect cache tsCacheable
      (tsHandle swOrigin net putFails cache req).bgCache = true ∧
    writesRespect cache jsRevalCacheable
      (jsHandle net putFails cache req).bgCache = true ∧
    writesRespect cacheM jsMissCacheable
      (jsHandle netM pfM cacheM reqM).bgCache = true := by
  refine ⟨?_, ?_, ?_, ?_⟩
  · unfold tsHandle
    split
    · exact writesRespect_refl _ _
    · split
      · exact writesRespect_refl _ _
      · dsimp only
        split
        · dsimp only
          split
          · next hcond =>
              exact writesRespect_put _ _ _ _
                ((Bool.and_eq_true _ _).mp hcond).1
          · exact writesRespect_refl _ _
        · exact writesRespect_refl _ _
  · unfold tsHandle
    split
    · exact writesRespect_refl _ _
    · split
      · dsimp only
        split
        · split
          · next hcond =>
              exact writesRespect_put _ _ _ _
                ((Bool.and_eq_true _ _).mp hcond).1
          · exact writesRespect_refl _ _
        · exact writesRespect_refl _ _
      · dsimp only
        split
        · dsimp only
          split
          · next hcond =>
              exact writesRespect_put _ _ _ _
                ((Bool.and_eq_true _ _).mp hcond).1
          · exact writesRespect_refl _ _
        · exact writesRespect_refl _ _
  · unfold jsHandle
    split
    · exact writesRespect_refl _ _
    · split
      · dsimp only
        split
        · split
          · next hcond =>
              exact writesRespect_put _ _ _ _
                ((Bool.and_eq_true _ _).mp hcond).1
          · exact writesRespect_refl _ _
        · exact writesRespect_refl _ _
      · dsimp only
        split
        · split
          · next hcond =>
              dsimp only
              split
              · next hpf =>
                  exact writesRespect_put _ _ _ _
                    ((Bool.and_eq_true _ _).mp hcond).1
              · exact writesRespect_refl _ _
          · exact writesRespect_refl _ _
        · exact writesRespect_refl _ _
  · unfold jsHandle
    split
    · exact writesRespect_refl _ _
    · rw [hm]
      dsimp only
      cases hnet : netM reqM with
      | none => exact writesRespect_refl _ _
      | some nr =>
          dsimp only
          by_cases hcc : jsMissCacheable nr = true
          · rw [if_pos hcc]
            cases pfM with
            | true => exact writesRespect_refl _ _
            | false => exact writesRespect_put _ _ _ _ hcc
          · rw [if_neg hcc]
            exact writesRespect_refl _ _

/-- Claim C3, witness for the amended theorem at concrete inputs. -/
theorem C3_witness :
    writesRespect [] tsCacheable
      (tsHandle appOrigin (fun _ => some okCors) false [] (apiReq "/api/scans")).syncCache = true ∧
    writesRespect [] tsCacheable
      (tsHandle appOrigin (fun _ => some okCors) false [] (apiReq "/api/scans")).bgCache = true ∧
    writesRespect [] jsRevalCacheable
      (jsHandle (fun _ => some okCors) false [] (apiReq "/api/scans")).bgCache = true ∧
    writesRespect [] jsMissCacheable
      (jsHandle (fun _ => some okCors) false [] (apiReq "/api/scans")).bgCache = true :=
  C3_amended appOrigin (fun _ => some okCors) (fun _ => some okCors)
    false false [] [] (apiReq "/api/scans") (apiReq "/api/scans") (by decide)

theorem filter_eq_nil_of_not_mem (t : String) (l : List String)
    (h : t ∉ l) : l.filter (fun n => decide (n = t)) = [] := by
  induction l with
  | nil => rfl
  | cons a l ih =>
      have ha : ¬ a = t := fun hh => h (hh ▸ List.mem_cons_self _ _)
      rw [List.filter_cons_of_neg (by simp [ha])]
      exact ih (fun hh => h (List.mem_cons_of_mem _ hh))

theorem filter_eq_single_of_nodup (t : String) (l : List String)
    (hnd : l.Nodup) (hmem : t ∈ l) :
    l.filter (fun n => decide (n = t)) = [t] := by
  induction l with
  | nil => cases hmem
  | cons a l ih =>
      rcases List.nodup_cons.mp hnd with ⟨ha, hl⟩
      by_cases hat : a = t
      · subst hat
        rw [List.filter_cons_of_pos (by simp)]
        rw [filter_eq_nil_of_not_mem a l ha]
      · have hmt : t ∈ l := by
          rcases List.mem_cons.mp hmem with h | h
          · exact absurd h.symm hat
          · exact h
        rw [List.filter_cons_of_neg (by simp [hat])]
        exact ih hl hmt

/-- Claim C4. Activation of the JavaScript worker deletes every cache
namespace whose name differs from `CACHE_NAME`; since install opened (and
so created) the current namespace, exactly the current namespace remains
after activation, whatever distinct namespaces existed before. -/
theorem C4_activation (names : List String) (hnd : names.Nodup) :
    jsActivate (openNamespace CACHE_NAME names) = [CACHE_NAME] := by
  unfold openNamespace jsActivate
  by_cases hmem : CACHE_NAME ∈ names
  · rw [if_pos hmem]
    exact filter_eq_single_of_nodup CACHE_NAME names hnd hmem
  · rw [if_neg hmem, List.filter_append,
        filter_eq_nil_of_not_mem CACHE_NAME names hmem]
    simp

/-- Claim C4, witness at a concrete pre-activation namespace list. -/
theorem C4_witness :
    jsActivate (openNamespace CACHE_NAME
      ["nexa-security-cache-v0", "unrelated-cache"]) = [CACHE_NAME] :=
  C4_activation ["nexa-security-cache-v0", "unrelated-cache"] (by decide)

/-- A preload URL whose fetch rejects. -/
def badUrl : String := "/api/bad"

/-- A preload URL whose fetch succeeds with `okBasic`. -/
def goodUrl : String := "/api/scans"

/-- Network oracle for the preload scenario: the bad URL rejects, every
other request resolves with `okBasic`. -/
def preloadNet : Request → Option Response :=
  fun r => if r.url.path = badUrl then none else some okBasic

/-- Claim C5, counterexample. The TypeScript worker preloads with one
atomic `cache.addAll`: with a preload set of one invalid and one valid
URL, installation still completes (the catch swallows the rejection), but
the valid URL produces no entry either — the whole batch is dropped, so
preloading is not per-entry best-effort there. -/
theorem C5_counterexample :
    tsInstall appOrigin preloadNet [] [badUrl, goodUrl] = [] ∧
    cacheMatch (tsInstall appOrigin preloadNet [] [badUrl, goodUrl])
      (reqOfUrl appOrigin goodUrl) = none := by
  decide

/-- Claim C5, amended. The JavaScript worker preloads per entry: with one
failing and one succeeding URL, installation completes, the succeeding
URL's entry is present and the failing URL produces no entry. The
TypeScript worker instead preloads with one atomic `addAll`: installation
also completes, but one failing URL leaves the store without any preload
entry, including the succeeding URL's. -/
theorem C5_amended (swOrigin : String) (net : Request → Option Response)
    (u v : String) (r : Response)
    (huv : ¬ u = v)
    (hu : preloadFetch net swOrigin u = none)
    (hv : preloadFetch net swOrigin v = some r) :
    jsInstall swOrigin net [] [u, v] = [(reqOfUrl swOrigin v, r)] ∧
    cacheMatch (jsInstall swOrigin net [] [u, v]) (reqOfUrl swOrigin v) = some r ∧
    cacheMatch (jsInstall swOrigin net [] [u, v]) (reqOfUrl swOrigin u) = none ∧
    tsInstall swOrigin net [] [u, v] = [] := by
  have hne : ¬ reqOfUrl swOrigin v = reqOfUrl swOrigin u := by
    simp [reqOfUrl]
    intro hh
    exact absurd hh.symm huv
  refine ⟨?_, ?_, ?_, ?_⟩
  · simp [jsInstall, hu, hv, cachePut]
  · simp [jsInstall, hu, hv, cachePut, cacheMatch]
  · simp [jsInstall, hu, hv, cachePut, cacheMatch, hne]
  · simp [tsInstall, hu]

/-- Claim C5, witness for the amended theorem at concrete inputs. -/
theorem C5_witness :
    jsInstall appOrigin preloadNet [] [badUrl, goodUrl] =
      [(reqOfUrl appOrigin goodUrl, okBasic)] ∧
    cacheMatch (jsInstall appOrigin preloadNet [] [badUrl, goodUrl])
      (reqOfUrl appOrigin goodUrl) = some okBasic ∧
    cacheMatch (jsInstall appOrigin preloadNet [] [badUrl, goodUrl])
      (reqOfUrl appOrigin badUrl) = none ∧
    tsInstall appOrigin preloadNet [] [badUrl, goodUrl] = [] :=
  C5_amended appOrigin preloadNet badUrl goodUrl okBasic
    (by decide) (by decide) (by decide)

/-- Claim C6. On a HIT, both workers deliver the stored response with the
cache unchanged at delivery time and dispatch exactly one background
revalidation fetch; the delivered response and the delivery-time cache do
not depend on the network oracle at all, so the response path never waits
on the revalidation fetch. -/
theorem C6_hit_no_wait (swOrigin : String)
    (net netJ : Request → Option Response) (putFails pfJ : Bool)
    (cache : Cache) (req : Request) (v : Response)
    (hscope : tsScope swOrigin req = true)
    (hm : req.method = "GET")
    (hhit : cacheMatch cache req = some v) :
    (tsHandle swOrigin net putFails cache req).outcome = Outcome.respond v ∧
    (tsHandle swOrigin net putFails cache req).syncCache = cache ∧
    (tsHandle swOrigin net putFails cache req).revalidations = 1 ∧
    (jsHandle netJ pfJ cache req).outcome = Outcome.respond v ∧
    (jsHandle netJ pfJ cache req).syncCache = cache ∧
    (jsHandle netJ pfJ cache req).revalidations = 1 := by
  refine ⟨?_, ?_, ?_, ?_, ?_, ?_⟩ <;>
    simp [tsHandle, jsHandle, hscope, hm, hhit]

/-- Claim C6, witness at a concrete populated store, with a network oracle
that always rejects: the HIT still answers from the store. -/
theorem C6_witness :
    (tsHandle appOrigin (fun _ => none) false
      [(apiReq "/api/scans", okBasic)] (apiReq "/api/scans")).outcome =
        Outcome.respond okBasic ∧
    (tsHandle appOrigin (fun _ => none) false
      [(apiReq "/api/scans", okBasic)] (apiReq "/api/scans")).syncCache =
        [(apiReq "/api/scans", okBasic)] ∧
    (tsHandle appOrigin (fun _ => none) false
      [(apiReq "/api/scans", okBasic)] (apiReq "/api/scans")).revalidations = 1 ∧
    (jsHandle (fun _ => none) false
      [(apiReq "/api/scans", okBasic)] (apiReq "/api/scans")).outcome =
        Outcome.respond okBasic ∧
    (jsHandle (fun _ => none) false
      [(apiReq "/api/scans", okBasic)] (apiReq "/api/scans")).syncCache =
        [(apiReq "/api/scans", okBasic)] ∧
    (jsHandle (fun _ => none) false
      [(apiReq "/api/scans", okBasic)] (apiReq "/api/scans")).revalidations = 1 :=
  C6_hit_no_wait appOrigin (fun _ => none) (fun _ => none) false false
    [(apiReq "/api/scans", okBasic)] (apiReq "/api/scans") okBasic
    (by decide) (by decide) (by decide)

/-- Claim C7. On a MISS whose fetch succeeds with a cacheable response,
both workers return exactly the fetched response whether the store write
fails or succeeds: with a failing put the cache is simply left unchanged,
with a succeeding put the entry lands in the store, and in every case the
caller-visible outcome is the same fetched response, never a rejection. -/
theorem C7_store_failure_ignored (swOrigin : String)
    (net : Request → Option Response) (cache : Cache) (req : Request)
    (nr : Response)
    (hscope : tsScope swOrigin req = true)
    (hm : req.method = "GET")
    (hmiss : cacheMatch cache req = none)
    (hnet : net req = some nr)
    (htc : tsCacheable nr = true)
    (hjc : jsMissCacheable nr = true) :
    (tsHandle swOrigin net true cache req).outcome = Outcome.respond nr ∧
    (tsHandle swOrigin net false cache req).outcome = Outcome.respond nr ∧
    (tsHandle swOrigin net true cache req).syncCache = cache ∧
    cacheMatch (tsHandle swOrigin net false cache req).syncCache req = some nr ∧
    (jsHandle net true cache req).outcome = Outcome.respond nr ∧
    (jsHandle net false cache req).outcome = Outcome.respond nr ∧
    (jsHandle net true cache req).bgCache = cache ∧
    cacheMatch (jsHandle net false cache req).bgCache req = some nr := by
  refine ⟨?_, ?_, ?_, ?_, ?_, ?_, ?_, ?_⟩ <;>
    simp [tsHandle, jsHandle, hscope, hm, hmiss, hnet, htc, hjc,
      cacheMatch_put_self]

/-- Claim C7, witness at a concrete empty store and succeeding fetch. -/
theorem C7_witness :
    (tsHandle appOrigin (fun _ => some okBasic) true [] (apiReq "/api/scans")).outcome =
      Outcome.respond okBasic ∧
    (tsHandle appOrigin (fun _ => some okBasic) false [] (apiReq "/api/scans")).outcome =
      Outcome.respond okBasic ∧
    (tsHandle appOrigin (fun _ => some okBasic) true [] (apiReq "/api/scans")).syncCache = [] ∧
    cacheMatch (tsHandle appOrigin (fun _ => some okBasic) false []
      (apiReq "/api/scans")).syncCache (apiReq "/api/scans") = some okBasic ∧
    (jsHandle (fun _ => some okBasic) true [] (apiReq "/api/scans")).outcome =
      Outcome.respond okBasic ∧
    (jsHandle (fun _ => some okBasic) false [] (apiReq "/api/scans")).outcome =
      Outcome.respond okBasic ∧
    (jsHandle (fun _ => some okBasic) true [] (apiReq "/api/scans")).bgCache = [] ∧
    cacheMatch (jsHandle (fun _ => some okBasic) false []
      (apiReq "/api/scans")).bgCache (apiReq "/api/scans") = some okBasic :=
  C7_store_failure_ignored appOrigin (fun _ => some okBasic) []
    (apiReq "/api/scans") okBasic (by decide) (by decide) (by decide)
    (by decide) (by decide) (by decide)

/-- The stored snapshot used by the idempotence scenario. -/
def staleBasic : Response :=
  { status := 200, statusText := "OK", body := "stale", type := "basic" }

/-- Claim C8. HIT idempotence, in both workers: a populated entry is
returned as-is; when the background revalidation does not write (its fetch
rejected), the cache is unchanged and an identical repeat request returns
the very same stored response; when the revalidation overwrote the entry
with a fresh cacheable response, the repeat request returns exactly the
overwritten value — the returned value changes only through such a write. -/
theorem C8_hit_idempotence (swOrigin : String)
    (net netN netW net2 net3 : Request → Option Response)
    (cache : Cache) (req : Request) (v nr : Response)
    (hscope : tsScope swOrigin req = true)
    (hm : req.method = "GET")
    (hhit : cacheMatch cache req = some v)
    (hN : netN req = none)
    (hW : netW req = some nr)
    (hcT : tsCacheable nr = true)
    (hcJ : jsRevalCacheable nr = true) :
    (tsHandle swOrigin net false cache req).outcome = Outcome.respond v ∧
    (tsHandle swOrigin netN false cache req).bgCache = cache ∧
    (tsHandle swOrigin net2 false
      (tsHandle swOrigin netN false cache req).bgCache req).outcome =
        Outcome.respond v ∧
    cacheMatch (tsHandle swOrigin netW false cache req).bgCache req = some nr ∧
    (tsHandle swOrigin net3 false
      (tsHandle swOrigin netW false cache req).bgCache req).outcome =
        Outcome.respond nr ∧
    (jsHandle net false cache req).outcome = Outcome.respond v ∧
    (jsHandle netN false cache req).bgCache = cache ∧
    (jsHandle net2 false (jsHandle netN false cache req).bgCache req).outcome =
      Outcome.respond v ∧
    cacheMatch (jsHandle netW false cache req).bgCache req = some nr ∧
    (jsHandle net3 false (jsHandle netW false cache req).bgCache req).outcome =
      Outcome.respond nr := by
  have hbgN : (tsHandle swOrigin netN false cache req).bgCache = cache := by
    simp [tsHandle, hscope, hhit, hN]
  have hbgW : (tsHandle swOrigin netW false cache req).bgCache =
      cachePut cache req nr := by
    simp [tsHandle, hscope, hhit, hW, hcT]
  have hjN : (jsHandle netN false cache req).bgCache = cache := by
    simp [jsHandle, hm, hhit, hN]
  have hjW : (jsHandle netW false cache req).bgCache = cachePut cache req nr := by
    simp [jsHandle, hm, hhit, hW, hcJ]
  refine ⟨?_, hbgN, ?_, ?_, ?_, ?_, hjN, ?_, ?_, ?_⟩
  · simp [tsHandle, hscope, hhit]
  · rw [hbgN]; simp [tsHandle, hscope, hhit]
  · rw [hbgW]; exact cacheMatch_put_self _ _ _
  · rw [hbgW]; simp [tsHandle, hscope, cacheMatch_put_self]
  · simp [jsHandle, hm, hhit]
  · rw [hjN]; simp [jsHandle, hm, hhit]
  · rw [hjW]; exact cacheMatch_put_self _ _ _
  · rw [hjW]; simp [jsHandle, hm, cacheMatch_put_self]

/-- Claim C8, witness: a store holding a stale snapshot, one repeat under a
rejecting revalidation and one after a successful overwrite. -/
theorem C8_witness :
    (tsHandle appOrigin (fun _ => none) false
      [(apiReq "/api/scans", staleBasic)] (apiReq "/api/scans")).outcome =
        Outcome.respond staleBasic ∧
    (tsHandle appOrigin (fun _ => none) false
      [(apiReq "/api/scans", staleBasic)] (apiReq "/api/scans")).bgCache =
        [(apiReq "/api/scans", staleBasic)] ∧
    (tsHandle appOrigin (fun _ => none) false
      (tsHandle appOrigin (fun _ => none) false
        [(apiReq "/api/scans", staleBasic)] (apiReq "/api/scans")).bgCache
      (apiReq "/api/scans")).outcome = Outcome.respond staleBasic ∧
    cacheMatch (tsHandle appOrigin (fun _ => some okBasic) false
      [(apiReq "/api/scans", staleBasic)] (apiReq "/api/scans")).bgCache
      (apiReq "/api/scans") = some okBasic ∧
    (tsHandle appOrigin (fun _ => none) false
      (tsHandle appOrigin (fun _ => some okBasic) false
        [(apiReq "/api/scans", staleBasic)] (apiReq "/api/scans")).bgCache
      (apiReq "/api/scans")).outcome = Outcome.respond okBasic ∧
    (jsHandle (fun _ => none) false
      [(apiReq "/api/scans", staleBasic)] (apiReq "/api/scans")).outcome =
        Outcome.respond staleBasic ∧
    (jsHandle (fun _ => none) false
      [(apiReq "/api/scans", staleBasic)] (apiReq "/api/scans")).bgCache =
        [(apiReq "/api/scans", staleBasic)] ∧
    (jsHandle (fun _ => none) false
      (jsHandle (fun _ => none) false
        [(apiReq "/api/scans", staleBasic)] (apiReq "/api/scans")).bgCache
      (apiReq "/api/scans")).outcome = Outcome.respond staleBasic ∧
    cacheMatch (jsHandle (fun _ => some okBasic) false
      [(apiReq "/api/scans", staleBasic)] (apiReq "/api/scans")).bgCache
      (apiReq "/api/scans") = some okBasic ∧
    (jsHandle (fun _ => none) false
      (jsHandle (fun _ => some okBasic) false
        [(apiReq "/api/scans", staleBasic)] (apiReq "/api/scans")).bgCache
      (apiReq "/api/scans")).outcome = Outcome.respond okBasic :=
  C8_hit_idempotence appOrigin (fun _ => none) (fun _ => none)
    (fun _ => some okBasic) (fun _ => none) (fun _ => none)
    [(apiReq "/api/scans", staleBasic)] (apiReq "/api/scans")
    staleBasic okBasic (by decide) (by decide) (by decide) (by decide)
    (by decide) (by decide) (by decide)

theorem tsScope_method (swOrigin : String) (req : Request)
    (h : tsScope swOrigin req = true) : req.method = "GET" := by
  by_cases hmm : req.method = "GET"
  · exact hmm
  · simp [tsScope, hmm] at h

theorem tsHandle_allGet (swOrigin : String) (net : Request → Option Response)
    (putFails : Bool) (cache : Cache) (req : Request)
    (h : allGet cache = true) :
    allGet (tsHandle swOrigin net putFails cache req).syncCache = true ∧
    allGet (tsHandle swOrigin net putFails cache req).bgCache = true := by
  cases hsc : tsScope swOrigin req with
  | false =>
      unfold tsHandle
      rw [if_pos hsc]
      exact ⟨h, h⟩
  | true =>
      have hget : req.method = "GET" := tsScope_method swOrigin req hsc
      unfold tsHandle
      rw [if_neg (by simp [hsc])]
      cases hcm : cacheMatch cache req with
      | some v =>
          dsimp only
          refine ⟨h, ?_⟩
          cases hnet : net req with
          | none => exact h
          | some nr =>
              dsimp only
              by_cases hcond : (tsCacheable nr && !putFails) = true
              · rw [if_pos hcond]
                exact allGet_put _ _ _ h hget
              · rw [if_neg hcond]
                exact h
      | none =>
          cases hnet : net req with
          | some nr =>
              dsimp only
              by_cases hcond : (tsCacheable nr && !putFails) = true
              · rw [if_pos hcond]
                exact ⟨allGet_put _ _ _ h hget, allGet_put _ _ _ h hget⟩
              · rw [if_neg hcond]
                exact ⟨h, h⟩
          | none => exact ⟨h, h⟩

theorem jsHandle_allGet (netJ : Request → Option Response) (pfJ : Bool)
    (cache : Cache) (reqJ : Request) (h : allGet cache = true) :
    allGet (jsHandle netJ pfJ cache reqJ).syncCache = true ∧
    allGet (jsHandle netJ pfJ cache reqJ).bgCache = true := by
  by_cases hget : reqJ.method = "GET"
  · unfold jsHandle
    rw [if_neg (fun hh => hh hget)]
    cases hcm : cacheMatch cache reqJ with
    | some v =>
        dsimp only
        refine ⟨h, ?_⟩
        cases hnet : netJ reqJ with
        | none => exact h
        | some nr =>
            dsimp only
            by_cases hcond : (jsRevalCacheable nr && !pfJ) = true
            · rw [if_pos hcond]
              exact allGet_put _ _ _ h hget
            · rw [if_neg hcond]
              exact h
    | none =>
        cases hnet : netJ reqJ with
        | some nr =>
            dsimp only
            by_cases hcc : jsMissCacheable nr = true
            · rw [if_pos hcc]
              refine ⟨h, ?_⟩
              cases pfJ with
              | true => exact h
              | false => exact allGet_put _ _ _ h hget
            · rw [if_neg hcc]
              exact ⟨h, h⟩
        | none => exact ⟨h, h⟩
  · unfold jsHandle
    rw [if_pos hget]
    exact ⟨h, h⟩

/-- Claim C9. If every entry of the store is keyed by a GET request, then
after any fetch event — pass-through, HIT with its revalidation write, or
MISS with its store write — every entry still is, in both workers: the
method guard runs before any interception, so interception-path writes
only ever create GET-keyed entries. -/
theorem C9_get_only (swOrigin : String) (net netJ : Request → Option Response)
    (putFails pfJ : Bool) (cache : Cache) (req reqJ : Request)
    (h : allGet cache = true) :
    allGet (tsHandle swOrigin net putFails cache req).syncCache = true ∧
    allGet (tsHandle swOrigin net putFails cache req).bgCache = true ∧
    allGet (jsHandle netJ pfJ cache reqJ).syncCache = true ∧
    allGet (jsHandle netJ pfJ cache reqJ).bgCache = true :=
  ⟨(tsHandle_allGet swOrigin net putFails cache req h).1,
   (tsHandle_allGet swOrigin net putFails cache req h).2,
   (jsHandle_allGet netJ pfJ cache reqJ h).1,
   (jsHandle_allGet netJ pfJ cache reqJ h).2⟩

/-- Claim C9, witness: a MISS that writes into a GET-only store. -/
theorem C9_witness :
    allGet (tsHandle appOrigin (fun _ => some okBasic) false
      [(apiReq "/api/network/map", staleBasic)] (apiReq "/api/scans")).syncCache = true ∧
    allGet (tsHandle appOrigin (fun _ => some okBasic) false
      [(apiReq "/api/network/map", staleBasic)] (apiReq "/api/scans")).bgCache = true ∧
    allGet (jsHandle (fun _ => some okBasic) false
      [(apiReq "/api/network/map", staleBasic)] (apiReq "/api/scans")).syncCache = true ∧
    allGet (jsHandle (fun _ => some okBasic) false
      [(apiReq "/api/network/map", staleBasic)] (apiReq "/api/scans")).bgCache = true :=
  C9_get_only appOrigin (fun _ => some okBasic) (fun _ => some okBasic)
    false false [(apiReq "/api/network/map", staleBasic)]
    (apiReq "/api/scans") (apiReq "/api/scans") (by decide)

/-- Claim C10. In the TypeScript worker the MISS-path `cache.put` is
awaited: when the fetch succeeds with a cacheable response and the put
succeeds, the cache state at the moment the response is delivered already
holds the new entry, so an immediately following identical request is a
HIT on it; when the put fails, the delivery-time cache is unchanged and
the response is still the fetched one. -/
theorem C10_miss_put_awaited (swOrigin : String)
    (net net2 : Request → Option Response) (pf2 : Bool)
    (cache : Cache) (req : Request) (nr : Response)
    (hscope : tsScope swOrigin req = true)
    (hmiss : cacheMatch cache req = none)
    (hnet : net req = some nr)
    (hc : tsCacheable nr = true) :
    cacheMatch (tsHandle swOrigin net false cache req).syncCache req = some nr ∧
    (tsHandle swOrigin net2 pf2
      (tsHandle swOrigin net false cache req).syncCache req).outcome =
        Outcome.respond nr ∧
    (tsHandle swOrigin net true cache req).syncCache = cache ∧
    (tsHandle swOrigin net true cache req).outcome = Outcome.respond nr := by
  have hsync : (tsHandle swOrigin net false cache req).syncCache =
      cachePut cache req nr := by
    simp [tsHandle, hscope, hmiss, hnet, hc]
  refine ⟨?_, ?_, ?_, ?_⟩
  · rw [hsync]; exact cacheMatch_put_self _ _ _
  · rw [hsync]; simp [tsHandle, hscope, cacheMatch_put_self]
  · simp [tsHandle, hscope, hmiss, hnet]
  · simp [tsHandle, hscope, hmiss, hnet]

/-- Claim C10, witness: an empty store, one MISS, then the repeat HIT. -/
theorem C10_witness :
    cacheMatch (tsHandle appOrigin (fun _ => some okBasic) false []
      (apiReq "/api/scans")).syncCache (apiReq "/api/scans") = some okBasic ∧
    (tsHandle appOrigin (fun _ => none) false
      (tsHandle appOrigin (fun _ => some okBasic) false []
        (apiReq "/api/scans")).syncCache (apiReq "/api/scans")).outcome =
      Outcome.respond okBasic ∧
    (tsHandle appOrigin (fun _ => some okBasic) true []
      (apiReq "/api/scans")).syncCache = [] ∧
    (tsHandle appOrigin (fun _ => some okBasic) true []
      (apiReq "/api/scans")).outcome = Outcome.respond okBasic :=
  C10_miss_put_awaited appOrigin (fun _ => some okBasic) (fun _ => none)
    false [] (apiReq "/api/scans") okBasic (by decide) (by decide)
    (by decide) (by decide)

end NexaSec
